import Mathlib

/-!
Verification of the Performia backend (evaluation-management service).

Shallow embedding of the service layer: database tables become lists of
records, SQLAlchemy queries become list operations, `HTTPException` raises
become `Except` errors, `Decimal` arithmetic becomes exact rationals with
an explicit 2-decimal half-even rounding step, and sources of randomness
(`secrets.token_urlsafe`, `random.randint`) become explicit parameters.
Each service function is translated from
`app/modules/.../services.py` / `routers.py` keeping the original names.
-/

namespace Performia

/-- An HTTP error raised via `HTTPException(status_code, detail)`. -/
structure HTTPError where
  status_code : Nat
  detail : String
deriving Repr, DecidableEq

/-- Row of `roles` (`app/modules/users/models.py`). Only the columns the
claims touch are kept. -/
structure Rol where
  id_rol : Nat
  nombre_rol : String
  estado : String
deriving Repr, DecidableEq

/-- Row of `usuarios` (`app/modules/users/models.py`).  `rol` is the
eagerly-loaded role relationship (`usuario.rol`). -/
structure Usuario where
  id_usuario : Nat
  nombre : String
  apellido : String
  correo : String
  estado : String
  id_rol : Nat
  rol : Rol
  manager_id : Option Nat
  correo_confirmado : Bool
  token_confirmacion : Option String
deriving Repr, DecidableEq

/-- Row of `formularios` (`app/modules/formularios/models.py`). -/
structure Formulario where
  id_formulario : Nat
  nombre_formulario : String
  descripcion : Option String
  tipo_formulario : String
  periodo : Option String
  rol_aplicable : Option Nat
  estado : String
deriving Repr, DecidableEq

/-- Row of `preguntas` (`app/modules/formularios/models.py`).  `peso` is a
`Decimal` column, embedded as an exact rational. -/
structure Pregunta where
  id_pregunta : Nat
  id_formulario : Nat
  texto_pregunta : String
  tipo_pregunta : String
  peso : Rat
  orden : Nat
  requerido : Bool
deriving Repr, DecidableEq

/-- Row of `evaluaciones` (`app/modules/evaluaciones/models.py`).  Dates are
abstract day numbers; `estado` keeps the literal Spanish state strings of the
code (`"Pendiente"`, `"En Curso"`, `"Completada"`, `"Cancelada"`). -/
structure Evaluacion where
  id_evaluacion : Nat
  id_formulario : Nat
  id_evaluado : Nat
  id_evaluador : Nat
  tipo_evaluacion : String
  periodo : String
  estado : String
  puntaje_total : Option Rat
  fecha_inicio : Nat
  fecha_fin : Nat
  observaciones_generales : Option String
deriving Repr, DecidableEq

/-- Row of `resultados` (`app/modules/evaluaciones/models.py`).  `puntaje`
is a nullable `Decimal` column. -/
structure Resultado where
  id_resultado : Nat
  id_evaluacion : Nat
  id_pregunta : Nat
  respuesta : Option String
  puntaje : Option Rat
  comentario : Option String
deriving Repr, DecidableEq

/-! ## Decimal rounding

`round(puntaje_final, 2)` on Python `Decimal` quantises to two decimal
places with the default `ROUND_HALF_EVEN` mode. -/

/-- Round a rational to the nearest integer, ties to the even integer
(Python `Decimal`'s default `ROUND_HALF_EVEN`). -/
def roundHalfEven (q : Rat) : Int :=
  let f : Int := ⌊q⌋
  let frac : Rat := q - (f : Rat)
  if frac < 1/2 then f
  else if 1/2 < frac then f + 1
  else if f % 2 = 0 then f else f + 1

/-- `round(q, 2)`: half-even rounding to two decimal places. -/
def round2 (q : Rat) : Rat := ((roundHalfEven (q * 100) : Int) : Rat) / 100

/-! ## `calcular_puntaje_evaluacion` (`evaluaciones/services.py`) -/

/-- The join `db.query(Resultado, Pregunta).join(Pregunta, Resultado.id_pregunta
== Pregunta.id_pregunta).filter(Resultado.id_evaluacion == evaluacion_id)`.
`id_pregunta` is the primary key of `preguntas`, so each result row joins
with at most one question row. -/
def resultadosConPreguntas (resultados : List Resultado) (preguntas : List Pregunta)
    (evaluacion_id : Nat) : List (Resultado × Pregunta) :=
  (resultados.filter (fun r => r.id_evaluacion == evaluacion_id)).filterMap
    (fun r => (preguntas.find? (fun p => p.id_pregunta == r.id_pregunta)).map
      (fun p => (r, p)))

/-- `calcular_puntaje_evaluacion`: weighted mean of the non-null scores of an
evaluation's results, weights taken from the joined questions; `0.00` when
there are no joined rows or no scored rows. -/
def calcular_puntaje_evaluacion (resultados : List Resultado) (preguntas : List Pregunta)
    (evaluacion_id : Nat) : Rat :=
  let joined := resultadosConPreguntas resultados preguntas evaluacion_id
  if joined = [] then 0
  else
    let suma_ponderada := joined.foldl (fun acc rp =>
      match rp.1.puntaje with
      | some s => acc + s * rp.2.peso
      | none => acc) 0
    let suma_pesos := joined.foldl (fun acc rp =>
      match rp.1.puntaje with
      | some _ => acc + rp.2.peso
      | none => acc) 0
    if suma_pesos = 0 then 0
    else round2 (suma_ponderada / suma_pesos)

/-! Spec-side restatement of the scoring rule, written from the claim's
words ("the numerator accumulates score times the question's weight and the
denominator accumulates the question's weight; if the denominator is zero
... the score is exactly 0.00, otherwise numerator divided by denominator
rounded to 2 decimal places"), to be compared with the embedded code. -/

/-- Numerator of the spec's weighted mean: sum of `score × weight` over
results whose score is not null. -/
def puntajeSpecNumerador (joined : List (Resultado × Pregunta)) : Rat :=
  (joined.filterMap (fun rp => rp.1.puntaje.map (fun s => s * rp.2.peso))).sum

/-- Denominator of the spec's weighted mean: sum of weights over results
whose score is not null. -/
def puntajeSpecDenominador (joined : List (Resultado × Pregunta)) : Rat :=
  (joined.filterMap (fun rp => rp.1.puntaje.map (fun _ => rp.2.peso))).sum

/-- The score as the claim words it: weighted mean over scored results,
`0` when the denominator is zero. -/
def puntajeSpec (resultados : List Resultado) (preguntas : List Pregunta)
    (evaluacion_id : Nat) : Rat :=
  let joined := resultadosConPreguntas resultados preguntas evaluacion_id
  let den := puntajeSpecDenominador joined
  if den = 0 then 0 else round2 (puntajeSpecNumerador joined / den)

/-- Evaluation helper: when `q·100` lies within less than `1/2` above the
integer `f`, `round2 q` is `f/100`. -/
theorem round2_eq_down (q : Rat) (f : Int) (h1 : (f : Rat) ≤ q * 100)
    (h2 : q * 100 - (f : Rat) < 1/2) : round2 q = (f : Rat) / 100 := by
  have hfl : ⌊q * 100⌋ = f := by
    rw [Int.floor_eq_iff]
    constructor
    · exact h1
    · linarith
  simp only [round2, roundHalfEven, hfl]
  rw [if_pos h2]

/-- Evaluation helper: when `q·100` lies within less than `1/2` below the
integer `f + 1`, `round2 q` is `(f+1)/100`. -/
theorem round2_eq_up (q : Rat) (f : Int) (h1 : (f : Rat) ≤ q * 100)
    (h2 : 1/2 < q * 100 - (f : Rat)) (h3 : q * 100 < (f : Rat) + 1) :
    round2 q = ((f : Rat) + 1) / 100 := by
  have hfl : ⌊q * 100⌋ = f := by
    rw [Int.floor_eq_iff]
    constructor
    · exact h1
    · linarith
  simp only [round2, roundHalfEven, hfl]
  rw [if_neg (by linarith), if_pos h2]
  push_cast
  ring

/-- Example data of the claim: two questions with weights 2 and 1. -/
def preguntasEjemplo : List Pregunta :=
  [⟨1, 1, "Comunicación", "Escala", 2, 1, true⟩,
   ⟨2, 1, "Liderazgo", "Escala", 1, 2, true⟩]

/-- Example data of the claim: results scoring 8 and 6 on the two
questions of `preguntasEjemplo`. -/
def resultadosEjemplo : List Resultado :=
  [⟨1, 1, 1, none, some 8, none⟩,
   ⟨2, 1, 2, none, some 6, none⟩]

theorem foldl_suma_ponderada (l : List (Resultado × Pregunta)) (a : Rat) :
    l.foldl (fun acc rp =>
      match rp.1.puntaje with
      | some s => acc + s * rp.2.peso
      | none => acc) a = a + puntajeSpecNumerador l := by
  induction l generalizing a with
  | nil => simp [puntajeSpecNumerador]
  | cons rp l ih =>
    cases h : rp.1.puntaje with
    | none => simp [List.foldl_cons, h, ih, puntajeSpecNumerador, List.filterMap_cons]
    | some s =>
      simp only [List.foldl_cons, h, ih, puntajeSpecNumerador, List.filterMap_cons,
        Option.map_some']
      simp [List.sum_cons]
      ring

theorem foldl_suma_pesos (l : List (Resultado × Pregunta)) (a : Rat) :
    l.foldl (fun acc rp =>
      match rp.1.puntaje with
      | some _ => acc + rp.2.peso
      | none => acc) a = a + puntajeSpecDenominador l := by
  induction l generalizing a with
  | nil => simp [puntajeSpecDenominador]
  | cons rp l ih =>
    cases h : rp.1.puntaje with
    | none => simp [List.foldl_cons, h, ih, puntajeSpecDenominador, List.filterMap_cons]
    | some s =>
      simp only [List.foldl_cons, h, ih, puntajeSpecDenominador, List.filterMap_cons,
        Option.map_some']
      simp [List.sum_cons]
      ring

theorem puntajeSpecDenominador_nil : puntajeSpecDenominador [] = 0 := by
  simp [puntajeSpecDenominador]

/-- C1: for every evaluation the computed total score is the weighted mean
of its results — null scores excluded, numerator `Σ score·weight`,
denominator `Σ weight`, `0.00` on a zero denominator (in particular with no
results at all), otherwise the quotient rounded to 2 decimal places — and on
scores {8, 6} with weights {2, 1} the score is 7.33. -/
theorem C1_puntaje_es_media_ponderada :
    (∀ (resultados : List Resultado) (preguntas : List Pregunta) (eid : Nat),
      calcular_puntaje_evaluacion resultados preguntas eid = puntajeSpec resultados preguntas eid)
    ∧ calcular_puntaje_evaluacion resultadosEjemplo preguntasEjemplo 1 = 733/100
    ∧ calcular_puntaje_evaluacion [] preguntasEjemplo 1 = 0 := by
  refine ⟨?_, ?_, by rfl⟩
  · intro resultados preguntas eid
    unfold calcular_puntaje_evaluacion puntajeSpec
    set joined := resultadosConPreguntas resultados preguntas eid with hj
    by_cases hnil : joined = []
    · simp [hnil, puntajeSpecDenominador_nil]
    · simp only [if_neg hnil]
      rw [foldl_suma_ponderada joined 0, foldl_suma_pesos joined 0, zero_add, zero_add]
  · have hjoin : resultadosConPreguntas resultadosEjemplo preguntasEjemplo 1 =
        [(⟨1, 1, 1, none, some 8, none⟩, ⟨1, 1, "Comunicación", "Escala", 2, 1, true⟩),
         (⟨2, 1, 2, none, some 6, none⟩, ⟨2, 1, "Liderazgo", "Escala", 1, 2, true⟩)] := by
      rfl
    simp only [calcular_puntaje_evaluacion, hjoin, List.foldl_cons, List.foldl_nil]
    rw [if_neg (List.cons_ne_nil _ _)]
    norm_num
    have h := round2_eq_down (22/3 : Rat) 733 (by norm_num) (by norm_num)
    push_cast at h
    exact h

/-! ## Evaluation state machine (`evaluaciones/services.py`) -/

/-- Body of `ResultadoCreate` (`evaluaciones/schemas.py`). -/
structure ResultadoCreate where
  id_pregunta : Nat
  respuesta : Option String
  puntaje : Option Rat
  comentario : Option String
deriving Repr, DecidableEq

/-- Body of `ResponderEvaluacionRequest` (`evaluaciones/schemas.py`). -/
structure ResponderEvaluacionRequest where
  resultados : List ResultadoCreate
  observaciones_generales : Option String
deriving Repr, DecidableEq

/-- `get_evaluacion_by_id`: `.filter(Evaluacion.id_evaluacion ==
evaluacion_id).first()`. -/
def get_evaluacion_by_id (evaluaciones : List Evaluacion) (evaluacion_id : Nat) :
    Option Evaluacion :=
  evaluaciones.find? (fun e => e.id_evaluacion == evaluacion_id)

/-- The per-answer loop of `responder_evaluacion`: each submitted answer must
name a question of the evaluation's form (else 400), and is upserted into the
results table keyed on `(id_evaluacion, id_pregunta)`.  The autoincrement id
of a freshly inserted row is abstracted as `0`. -/
def registrar_resultados (preguntas : List Pregunta) (id_formulario : Nat)
    (evaluacion_id : Nat) :
    List Resultado → List ResultadoCreate → Except HTTPError (List Resultado)
  | db, [] => .ok db
  | db, rd :: rest =>
    let pid := rd.id_pregunta
    match preguntas.find? (fun p => p.id_pregunta == pid && p.id_formulario == id_formulario) with
    | none => .error ⟨400, s!"Pregunta {pid} no pertenece a este formulario"⟩
    | some _ =>
      let db' :=
        if (db.find? (fun r => r.id_evaluacion == evaluacion_id && r.id_pregunta == pid)).isSome then
          db.map (fun r =>
            if r.id_evaluacion == evaluacion_id && r.id_pregunta == pid then
              { r with respuesta := rd.respuesta, puntaje := rd.puntaje,
                       comentario := rd.comentario }
            else r)
        else
          db ++ [⟨0, evaluacion_id, pid, rd.respuesta, rd.puntaje, rd.comentario⟩]
      registrar_resultados preguntas id_formulario evaluacion_id db' rest

/-- `responder_evaluacion`: 404 when the evaluation is missing, 403 when the
caller is not its evaluator, 400 when its state is not `Pendiente`/`En Curso`;
otherwise the answers are upserted, the state moves to `En Curso` and the
general remarks are overwritten.  (The Python detail string wraps the state in
single quotes.) -/
def responder_evaluacion (evaluaciones : List Evaluacion) (resultados_db : List Resultado)
    (preguntas : List Pregunta) (evaluacion_id : Nat)
    (request : ResponderEvaluacionRequest) (evaluador_id : Nat) :
    Except HTTPError (List Evaluacion × List Resultado) :=
  match get_evaluacion_by_id evaluaciones evaluacion_id with
  | none => .error ⟨404, "Evaluación no encontrada"⟩
  | some evaluacion =>
    if evaluacion.id_evaluador ≠ evaluador_id then
      .error ⟨403, "No tienes permiso para responder esta evaluación"⟩
    else if evaluacion.estado ∉ ["Pendiente", "En Curso"] then
      .error ⟨400, s!"La evaluación está en estado {evaluacion.estado} y no puede ser respondida"⟩
    else
      match registrar_resultados preguntas evaluacion.id_formulario evaluacion_id
          resultados_db request.resultados with
      | .error e => .error e
      | .ok db' =>
        .ok (evaluaciones.map (fun e =>
          if e.id_evaluacion == evaluacion_id then
            { e with estado := "En Curso",
                     observaciones_generales := request.observaciones_generales }
          else e), db')

/-- The missing-required-questions computation inside `completar_evaluacion`:
ids of required questions of the form having no registered result for the
evaluation. -/
def preguntas_faltantes (preguntas : List Pregunta) (resultados_db : List Resultado)
    (id_formulario : Nat) (evaluacion_id : Nat) : List Nat :=
  let preguntas_requeridas := preguntas.filter (fun p =>
    p.id_formulario == id_formulario && p.requerido)
  let resultados_registrados := resultados_db.filter (fun r =>
    r.id_evaluacion == evaluacion_id)
  let preguntas_respondidas := resultados_registrados.map (fun r => r.id_pregunta)
  (preguntas_requeridas.map (fun p => p.id_pregunta)).filter
    (fun pid => ¬ pid ∈ preguntas_respondidas)

/-- `completar_evaluacion`: 404 when missing, 403 when the caller is not the
evaluator, 400 when a required question of the form has no registered result;
otherwise — with no check of the current state — the weighted score is
computed, the state is set to `Completada` and the end date to today. -/
def completar_evaluacion (evaluaciones : List Evaluacion) (resultados_db : List Resultado)
    (preguntas : List Pregunta) (evaluacion_id : Nat) (evaluador_id : Nat)
    (hoy : Nat) : Except HTTPError (List Evaluacion) :=
  match get_evaluacion_by_id evaluaciones evaluacion_id with
  | none => .error ⟨404, "Evaluación no encontrada"⟩
  | some evaluacion =>
    if evaluacion.id_evaluador ≠ evaluador_id then
      .error ⟨403, "No tienes permiso para completar esta evaluación"⟩
    else
      let faltantes := preguntas_faltantes preguntas resultados_db
        evaluacion.id_formulario evaluacion_id
      if faltantes ≠ [] then
        let n := faltantes.length
        .error ⟨400, s!"Faltan responder {n} pregunta(s) requerida(s)"⟩
      else
        let puntaje_total := calcular_puntaje_evaluacion resultados_db preguntas evaluacion_id
        .ok (evaluaciones.map (fun e =>
          if e.id_evaluacion == evaluacion_id then
            { e with estado := "Completada", puntaje_total := some puntaje_total,
                     fecha_fin := hoy }
          else e))

/-- `cancelar_evaluacion`: 404 when missing, 400 when already `Completada`;
otherwise sets `Cancelada`, and when a non-empty reason is given (Python
truthiness of `motivo`) overwrites the remarks with `CANCELADA: <motivo>`. -/
def cancelar_evaluacion (evaluaciones : List Evaluacion) (evaluacion_id : Nat)
    (motivo : Option String) : Except HTTPError (List Evaluacion) :=
  match get_evaluacion_by_id evaluaciones evaluacion_id with
  | none => .error ⟨404, "Evaluación no encontrada"⟩
  | some evaluacion =>
    if evaluacion.estado = "Completada" then
      .error ⟨400, "No se puede cancelar una evaluación completada"⟩
    else
      .ok (evaluaciones.map (fun e =>
        if e.id_evaluacion == evaluacion_id then
          { e with estado := "Cancelada",
                   observaciones_generales :=
                     match motivo with
                     | some m => if m ≠ "" then some s!"CANCELADA: {m}"
                                 else e.observaciones_generales
                     | none => e.observaciones_generales }
        else e))

/-- A concrete cancelled evaluation, used to exhibit the missing state guard
of `completar_evaluacion`. -/
def evaluacionCancelada : Evaluacion :=
  ⟨1, 1, 2, 3, "Desempeño", "2025", "Cancelada", none, 0, 10, none⟩

/-- C2 counterexample: the claim "for every evaluation whose state is
Cancelada or Completada, the complete operation does not transition it to
Completada" is false — on a `Cancelada` evaluation of a form with no
required questions, `completar_evaluacion` succeeds and rewrites the state to
`Completada`, recomputing the score. -/
theorem C2_contraejemplo_completar_cancelada :
    evaluacionCancelada.estado = "Cancelada"
    ∧ completar_evaluacion [evaluacionCancelada] [] [] 1 3 20 =
        .ok [⟨1, 1, 2, 3, "Desempeño", "2025", "Completada", some 0, 0, 20, none⟩] := by
  constructor
  · rfl
  · rfl

/-- C2 (amended): `responder_evaluacion` is rejected on a `Cancelada` or
`Completada` evaluation and `cancelar_evaluacion` is rejected on a
`Completada` one, but `completar_evaluacion` checks no state at all: any
found evaluation whose evaluator matches and whose required questions are all
answered — whatever its current state, including `Cancelada` and
`Completada` — is transitioned to `Completada` with a freshly computed
score. -/
theorem C2_maquina_estados (evaluaciones : List Evaluacion)
    (resultados_db : List Resultado) (preguntas : List Pregunta)
    (evaluacion_id evaluador_id hoy : Nat) (request : ResponderEvaluacionRequest)
    (motivo : Option String) (ev : Evaluacion)
    (hfind : get_evaluacion_by_id evaluaciones evaluacion_id = some ev) :
    ((ev.estado = "Cancelada" ∨ ev.estado = "Completada") →
      ∀ res, responder_evaluacion evaluaciones resultados_db preguntas evaluacion_id
        request evaluador_id ≠ .ok res)
    ∧ (ev.estado = "Completada" →
      cancelar_evaluacion evaluaciones evaluacion_id motivo =
        .error ⟨400, "No se puede cancelar una evaluación completada"⟩)
    ∧ (ev.id_evaluador = evaluador_id →
      preguntas_faltantes preguntas resultados_db ev.id_formulario evaluacion_id = [] →
      completar_evaluacion evaluaciones resultados_db preguntas evaluacion_id
          evaluador_id hoy =
        .ok (evaluaciones.map (fun e =>
          if e.id_evaluacion == evaluacion_id then
            { e with estado := "Completada",
                     puntaje_total := some (calcular_puntaje_evaluacion resultados_db
                       preguntas evaluacion_id),
                     fecha_fin := hoy }
          else e))) := by
  refine ⟨?_, ?_, ?_⟩
  · intro hterm res
    have hni : ev.estado ∉ ["Pendiente", "En Curso"] := by
      rcases hterm with h | h <;> simp [h]
    by_cases hperm : ev.id_evaluador ≠ evaluador_id
    · simp [responder_evaluacion, hfind, hperm]
    · simp [responder_evaluacion, hfind, hperm, hni]
  · intro hcompl
    simp [cancelar_evaluacion, hfind, hcompl]
  · intro hperm hfalt
    simp [completar_evaluacion, hfind, hperm, hfalt]

/-- C2 witness: `C2_maquina_estados` applied to a concrete completed
evaluation — cancelling it is rejected with the 400 error of the code. -/
theorem C2_maquina_estados_testigo :
    cancelar_evaluacion [⟨1, 1, 2, 3, "Desempeño", "2025", "Completada", some 5, 0, 10, none⟩]
        1 none =
      .error ⟨400, "No se puede cancelar una evaluación completada"⟩ :=
  (C2_maquina_estados
    [⟨1, 1, 2, 3, "Desempeño", "2025", "Completada", some 5, 0, 10, none⟩]
    [] [] 1 3 20 ⟨[], none⟩ none
    ⟨1, 1, 2, 3, "Desempeño", "2025", "Completada", some 5, 0, 10, none⟩ rfl).2.1 rfl

/-! ## Authentication dependency and single-fetch access control
(`auth/dependencies.py`, `evaluaciones/routers.py`) -/

/-- The 401 `credentials_exception` of `get_current_user`. -/
def credentials_exception : HTTPError := ⟨401, "No se pudo validar las credenciales"⟩

/-- `get_current_user`: `payload` models `decode_access_token(token)`
(`none` = invalid token) and the inner option models `payload.get("sub")`.
A found user must be in `Activo` state, otherwise 403. -/
def get_current_user (payload : Option (Option Nat)) (usuarios : List Usuario) :
    Except HTTPError Usuario :=
  match payload with
  | none => .error credentials_exception
  | some none => .error credentials_exception
  | some (some user_id) =>
    match usuarios.find? (fun u => u.id_usuario == user_id) with
    | none => .error credentials_exception
    | some usuario =>
      if usuario.estado ≠ "Activo" then .error ⟨403, "Usuario inactivo o suspendido"⟩
      else .ok usuario

/-- `obtener_evaluacion` (router `GET /{evaluacion_id}`): 404 when the
evaluation is missing; allowed for the evaluator, the evaluated user, the
evaluated user's direct manager, or a caller whose role is Administrador,
RRHH or Director; 403 otherwise.  `evaluacion.evaluado` is the user row
whose id is `evaluacion.id_evaluado`. -/
def obtener_evaluacion (evaluaciones : List Evaluacion) (usuarios : List Usuario)
    (evaluacion_id : Nat) (current_user : Usuario) : Except HTTPError Evaluacion :=
  match get_evaluacion_by_id evaluaciones evaluacion_id with
  | none => .error ⟨404, "Evaluación no encontrada"⟩
  | some evaluacion =>
    let evaluado := usuarios.find? (fun u => u.id_usuario == evaluacion.id_evaluado)
    let es_manager_del_evaluado :=
      match evaluado with
      | some evd => evd.manager_id == some current_user.id_usuario
      | none => false
    let tiene_permiso :=
      current_user.id_usuario == evaluacion.id_evaluador ||
      current_user.id_usuario == evaluacion.id_evaluado ||
      es_manager_del_evaluado ||
      ["Administrador", "RRHH", "Director"].contains current_user.rol.nombre_rol
    if tiene_permiso then .ok evaluacion
    else .error ⟨403, "No tienes permiso para ver esta evaluación"⟩

theorem get_current_user_activo (payload : Option (Option Nat))
    (usuarios : List Usuario) (u : Usuario)
    (h : get_current_user payload usuarios = .ok u) : u.estado = "Activo" := by
  match payload with
  | none => simp [get_current_user, credentials_exception] at h
  | some none => simp [get_current_user, credentials_exception] at h
  | some (some uid) =>
    cases hf : usuarios.find? (fun v => v.id_usuario == uid) with
    | none => simp [get_current_user, hf, credentials_exception] at h
    | some v =>
      simp only [get_current_user, hf] at h
      by_cases hv : v.estado ≠ "Activo"
      · rw [if_pos hv] at h; simp at h
      · rw [if_neg hv] at h
        simp only [Except.ok.injEq] at h
        rw [← h]
        simpa using hv

/-- C3: for an existing evaluation whose evaluated user exists, and an
authenticated caller (necessarily in `Activo` state), the single fetch
succeeds exactly when the caller is the evaluator, the evaluated user, the
evaluated user's direct manager, or holds one of the roles Administrador,
RRHH, Director; any other caller gets the 403 error of the code. -/
theorem C3_control_acceso_obtener (evaluaciones : List Evaluacion)
    (usuarios : List Usuario) (evaluacion_id : Nat) (payload : Option (Option Nat))
    (current ev_evaluado : Usuario) (ev : Evaluacion)
    (hcur : get_current_user payload usuarios = .ok current)
    (hfind : get_evaluacion_by_id evaluaciones evaluacion_id = some ev)
    (hevd : usuarios.find? (fun u => u.id_usuario == ev.id_evaluado) = some ev_evaluado) :
    current.estado = "Activo"
    ∧ (obtener_evaluacion evaluaciones usuarios evaluacion_id current = .ok ev ↔
        (current.id_usuario = ev.id_evaluador ∨ current.id_usuario = ev.id_evaluado ∨
         ev_evaluado.manager_id = some current.id_usuario ∨
         current.rol.nombre_rol ∈ ["Administrador", "RRHH", "Director"]))
    ∧ (¬(current.id_usuario = ev.id_evaluador ∨ current.id_usuario = ev.id_evaluado ∨
         ev_evaluado.manager_id = some current.id_usuario ∨
         current.rol.nombre_rol ∈ ["Administrador", "RRHH", "Director"]) →
        obtener_evaluacion evaluaciones usuarios evaluacion_id current =
          .error ⟨403, "No tienes permiso para ver esta evaluación"⟩) := by
  refine ⟨get_current_user_activo payload usuarios current hcur, ?_, ?_⟩
  · simp only [obtener_evaluacion, hfind, hevd]
    simp [List.elem_iff]
    tauto
  · intro hperm
    push_neg at hperm
    simp only [List.mem_cons, List.not_mem_nil, or_false, not_or] at hperm
    simp only [obtener_evaluacion, hfind, hevd]
    simp [List.elem_iff]
    tauto

/-- An administrator account used as concrete witness data. -/
def usuarioAdmin : Usuario :=
  ⟨5, "Ana", "Diaz", "ana@performia.com", "Activo", 1, ⟨1, "Administrador", "Activo"⟩,
   none, true, none⟩

/-- An evaluated collaborator account used as concrete witness data. -/
def usuarioEvaluado : Usuario :=
  ⟨2, "Eva", "Luna", "eva@performia.com", "Activo", 2, ⟨2, "Colaborador", "Activo"⟩,
   some 9, true, none⟩

/-- A pending evaluation of `usuarioEvaluado` used as concrete witness data. -/
def evaluacionPendiente : Evaluacion :=
  ⟨1, 1, 2, 3, "Desempeño", "2025", "Pendiente", none, 0, 10, none⟩

/-- C3 witness: `C3_control_acceso_obtener` applied to a concrete
authenticated administrator fetching a concrete evaluation. -/
theorem C3_control_acceso_obtener_testigo :
    obtener_evaluacion [evaluacionPendiente] [usuarioAdmin, usuarioEvaluado] 1 usuarioAdmin =
      .ok evaluacionPendiente :=
  ((C3_control_acceso_obtener [evaluacionPendiente] [usuarioAdmin, usuarioEvaluado] 1
      (some (some 5)) usuarioAdmin usuarioEvaluado evaluacionPendiente
      rfl rfl rfl).2.1).mpr
    (Or.inr (Or.inr (Or.inr (by simp [usuarioAdmin]))))

/-! ## Mass assignment (`asignar_evaluacion_masiva`, `evaluaciones/services.py`
and `AsignarEvaluacionMasivaRequest`, `evaluaciones/schemas.py`) -/

/-- Body of `AsignarEvaluacionMasivaRequest`.  `dias_plazo` arrives already
validated by the schema (`Field(21, ge=1, le=90)`). -/
structure AsignarEvaluacionMasivaRequest where
  id_formulario : Nat
  rol_id : Nat
  periodo : String
  tipo_evaluacion : String
  dias_plazo : Nat
deriving Repr, DecidableEq

/-- The pydantic bound check `Field(21, ge=1, le=90)` on `dias_plazo`. -/
def dias_plazo_valido (n : Int) : Bool := 1 ≤ n && n ≤ 90

/-- The schema default of `dias_plazo`. -/
def dias_plazo_default : Int := 21

/-- Entry of the `evaluaciones_creadas` / `evaluaciones_existentes` response
lists: `{usuario_id, nombre: f"{nombre} {apellido}", correo}`. -/
structure UsuarioAsignado where
  usuario_id : Nat
  nombre : String
  correo : String
deriving Repr, DecidableEq

/-- The response-list entry built for a user. -/
def usuarioInfo (u : Usuario) : UsuarioAsignado :=
  ⟨u.id_usuario, s!"{u.nombre} {u.apellido}", u.correo⟩

/-- The duplicate check of the loop: a `Pendiente`/`En Curso` evaluation of
the same user for the same form and period already exists. -/
def tiene_evaluacion_pendiente (evaluaciones : List Evaluacion) (id_formulario : Nat)
    (usuario_id : Nat) (periodo : String) : Bool :=
  (evaluaciones.find? (fun e =>
    e.id_formulario == id_formulario && e.id_evaluado == usuario_id &&
    e.periodo == periodo &&
    (e.estado == "Pendiente" || e.estado == "En Curso"))).isSome

/-- The self-evaluation row created for a user: evaluator equal to evaluated
user, state `Pendiente`, the batch's start and end dates.  The autoincrement
id is abstracted as `0`. -/
def nuevaEvaluacionDe (request : AsignarEvaluacionMasivaRequest)
    (fecha_inicio fecha_fin : Nat) (u : Usuario) : Evaluacion :=
  ⟨0, request.id_formulario, u.id_usuario, u.id_usuario, request.tipo_evaluacion,
   request.periodo, "Pendiente", none, fecha_inicio, fecha_fin, none⟩

/-- The per-user loop of `asignar_evaluacion_masiva`: users with an existing
`Pendiente`/`En Curso` evaluation for the form+period go to the `existentes`
list, the rest get a fresh self-evaluation and go to the `creadas` list.
Returns `(creadas, existentes, new rows)`. -/
def procesar_usuarios (request : AsignarEvaluacionMasivaRequest)
    (evaluaciones : List Evaluacion) (fecha_inicio fecha_fin : Nat) :
    List Usuario → List UsuarioAsignado × List UsuarioAsignado × List Evaluacion
  | [] => ([], [], [])
  | u :: rest =>
    let (creadas, existentes, nuevas) :=
      procesar_usuarios request evaluaciones fecha_inicio fecha_fin rest
    if tiene_evaluacion_pendiente evaluaciones request.id_formulario u.id_usuario
        request.periodo then
      (creadas, usuarioInfo u :: existentes, nuevas)
    else
      (usuarioInfo u :: creadas, existentes,
       nuevaEvaluacionDe request fecha_inicio fecha_fin u :: nuevas)

/-- Result of `asignar_evaluacion_masiva` (the response dict plus the rows
added to the session). -/
structure AsignacionMasivaResult where
  evaluaciones_creadas : List UsuarioAsignado
  evaluaciones_existentes : List UsuarioAsignado
  total_usuarios : Nat
  nuevas_evaluaciones : List Evaluacion
  fecha_inicio : Nat
  fecha_fin : Nat
deriving Repr, DecidableEq

/-- `asignar_evaluacion_masiva`: 404 when the form is missing, 400 when it is
not `Activo`, 404 when no active user holds the role; otherwise each active
user of the role either keeps the evaluation they already have (reported in
`existentes`) or receives a fresh `Pendiente` self-evaluation running from
today to today plus `dias_plazo` days. -/
def asignar_evaluacion_masiva (formularios : List Formulario) (usuarios : List Usuario)
    (evaluaciones : List Evaluacion) (request : AsignarEvaluacionMasivaRequest)
    (hoy : Nat) : Except HTTPError AsignacionMasivaResult :=
  match formularios.find? (fun f => f.id_formulario == request.id_formulario) with
  | none => .error ⟨404, "Formulario no encontrado"⟩
  | some formulario =>
    if formulario.estado ≠ "Activo" then
      .error ⟨400, "Solo se pueden asignar formularios activos"⟩
    else
      let usuarios_rol := usuarios.filter (fun u =>
        u.id_rol == request.rol_id && u.estado == "Activo")
      if usuarios_rol = [] then
        let rid := request.rol_id
        .error ⟨404, s!"No se encontraron usuarios activos con el rol ID {rid}"⟩
      else
        let fecha_inicio := hoy
        let fecha_fin := hoy + request.dias_plazo
        let (creadas, existentes, nuevas) :=
          procesar_usuarios request evaluaciones fecha_inicio fecha_fin usuarios_rol
        .ok ⟨creadas, existentes, usuarios_rol.length, nuevas, fecha_inicio, fecha_fin⟩

theorem procesar_usuarios_eq_filtros (request : AsignarEvaluacionMasivaRequest)
    (evaluaciones : List Evaluacion) (fecha_inicio fecha_fin : Nat)
    (lst : List Usuario) :
    procesar_usuarios request evaluaciones fecha_inicio fecha_fin lst =
      ((lst.filter (fun u => !(tiene_evaluacion_pendiente evaluaciones
          request.id_formulario u.id_usuario request.periodo))).map usuarioInfo,
       (lst.filter (fun u => tiene_evaluacion_pendiente evaluaciones
          request.id_formulario u.id_usuario request.periodo)).map usuarioInfo,
       (lst.filter (fun u => !(tiene_evaluacion_pendiente evaluaciones
          request.id_formulario u.id_usuario request.periodo))).map
         (nuevaEvaluacionDe request fecha_inicio fecha_fin)) := by
  induction lst with
  | nil => simp [procesar_usuarios]
  | cons u rest ih =>
    cases h : tiene_evaluacion_pendiente evaluaciones request.id_formulario
        u.id_usuario request.periodo with
    | true => simp [procesar_usuarios, ih, h, List.filter_cons]
    | false => simp [procesar_usuarios, ih, h, List.filter_cons]

/-- C4: when the form exists, is active, and at least one active user holds
the role, mass assignment creates — for exactly those active role holders
with no existing `Pendiente`/`En Curso` evaluation for the same form and
period — a fresh `Pendiente` self-evaluation (evaluator = evaluated user)
running from today to today plus `dias_plazo`; role holders that do have one
are reported in `existentes`, not `creadas`; and the schema accepts
`dias_plazo` exactly in the range 1–90 with default 21. -/
theorem C4_asignacion_masiva (formularios : List Formulario)
    (usuarios : List Usuario) (evaluaciones : List Evaluacion)
    (request : AsignarEvaluacionMasivaRequest) (hoy : Nat)
    (formulario : Formulario)
    (hform : formularios.find? (fun f => f.id_formulario == request.id_formulario) =
      some formulario)
    (hact : formulario.estado = "Activo")
    (hne : usuarios.filter (fun u =>
      u.id_rol == request.rol_id && u.estado == "Activo") ≠ []) :
    asignar_evaluacion_masiva formularios usuarios evaluaciones request hoy =
      .ok ⟨((usuarios.filter (fun u => u.id_rol == request.rol_id &&
              u.estado == "Activo")).filter (fun u =>
              !(tiene_evaluacion_pendiente evaluaciones request.id_formulario
                u.id_usuario request.periodo))).map usuarioInfo,
           ((usuarios.filter (fun u => u.id_rol == request.rol_id &&
              u.estado == "Activo")).filter (fun u =>
              tiene_evaluacion_pendiente evaluaciones request.id_formulario
                u.id_usuario request.periodo)).map usuarioInfo,
           (usuarios.filter (fun u => u.id_rol == request.rol_id &&
              u.estado == "Activo")).length,
           ((usuarios.filter (fun u => u.id_rol == request.rol_id &&
              u.estado == "Activo")).filter (fun u =>
              !(tiene_evaluacion_pendiente evaluaciones request.id_formulario
                u.id_usuario request.periodo))).map
             (nuevaEvaluacionDe request hoy (hoy + request.dias_plazo)),
           hoy, hoy + request.dias_plazo⟩
    ∧ (∀ n : Int, dias_plazo_valido n = true ↔ 1 ≤ n ∧ n ≤ 90)
    ∧ dias_plazo_default = 21 := by
  refine ⟨?_, ?_, rfl⟩
  · simp only [asignar_evaluacion_masiva, hform, hact]
    rw [if_neg (by simp), if_neg hne, procesar_usuarios_eq_filtros]
  · intro n
    simp [dias_plazo_valido]

/-- Concrete active form for the mass-assignment witness. -/
def formularioActivo : Formulario :=
  ⟨1, "Evaluación Anual", none, "Desempeño", some "2025", none, "Activo"⟩

/-- Concrete role holder that already has a pending evaluation. -/
def usuarioConEvaluacion : Usuario :=
  ⟨7, "Luis", "Mora", "luis@performia.com", "Activo", 2,
   ⟨2, "Colaborador", "Activo"⟩, none, true, none⟩

/-- Concrete role holder with no pending evaluation. -/
def usuarioSinEvaluacion : Usuario :=
  ⟨8, "Rita", "Paz", "rita@performia.com", "Activo", 2,
   ⟨2, "Colaborador", "Activo"⟩, none, true, none⟩

/-- C4 witness: `C4_asignacion_masiva` on two active role holders, one of
whom already has a `Pendiente` evaluation for the same form and period — only
the other receives a new self-evaluation, and the first is reported under
`existentes`. -/
theorem C4_asignacion_masiva_testigo :
    asignar_evaluacion_masiva [formularioActivo]
        [usuarioConEvaluacion, usuarioSinEvaluacion]
        [⟨3, 1, 7, 7, "Autoevaluación", "2025", "Pendiente", none, 50, 71, none⟩]
        ⟨1, 2, "2025", "Autoevaluación", 21⟩ 100 =
      .ok ⟨[⟨8, "Rita Paz", "rita@performia.com"⟩],
           [⟨7, "Luis Mora", "luis@performia.com"⟩],
           2,
           [⟨0, 1, 8, 8, "Autoevaluación", "2025", "Pendiente", none, 100, 121, none⟩],
           100, 121⟩ :=
  ((C4_asignacion_masiva [formularioActivo]
      [usuarioConEvaluacion, usuarioSinEvaluacion]
      [⟨3, 1, 7, 7, "Autoevaluación", "2025", "Pendiente", none, 50, 71, none⟩]
      ⟨1, 2, "2025", "Autoevaluación", 21⟩ 100 formularioActivo
      rfl rfl (by decide)).1).trans (by rfl)

/-! ## Auth flows (`auth/routers.py`, `auth/services.py`) -/

/-- A `{"message": ...}` JSON response body. -/
structure MensajeResponse where
  message : String
deriving Repr, DecidableEq

/-- A queued `send_confirmation_email` background task. -/
structure EmailTask where
  email : String
  nombre : String
  token : String
deriving Repr, DecidableEq

/-- A queued `send_password_reset_code_email` background task. -/
structure ResetCodeEmailTask where
  email : String
  nombre : String
  codigo : String
deriving Repr, DecidableEq

/-- Body of `RegisterRequest` (`auth/schemas.py`). -/
structure RegisterRequest where
  nombre : String
  apellido : String
  email : String
  telefono : Option String
  password : String
  puesto : String
  area : String
  id_rol : Nat
deriving Repr, DecidableEq

/-- `create_user` (`auth/services.py`): the new account is created directly
in `Activo` state with `correo_confirmado=False` and a fresh confirmation
token.  The password hash, the random token, the autoincrement id and the
role row joined through `id_rol` are explicit parameters. -/
def create_user (user_data : RegisterRequest) (token_confirmacion : String)
    (next_id : Nat) (rol : Rol) : Usuario :=
  ⟨next_id, user_data.nombre, user_data.apellido, user_data.email, "Activo",
   user_data.id_rol, rol, none, false, some token_confirmacion⟩

/-- `regenerate_confirmation_token` (`auth/services.py`): `none` when the
email matches no user or the user's state is `Activo`; otherwise stores the
fresh token on the user and returns it. -/
def regenerate_confirmation_token (usuarios : List Usuario) (email : String)
    (nuevo_token : String) : List Usuario × Option String :=
  match usuarios.find? (fun u => u.correo == email) with
  | none => (usuarios, none)
  | some usuario =>
    if usuario.estado = "Activo" then (usuarios, none)
    else
      (usuarios.map (fun v =>
        if v.id_usuario == usuario.id_usuario then
          { v with token_confirmacion := some nuevo_token }
        else v),
       some nuevo_token)

/-- `reenviar_confirmacion` (router `POST /reenviar-confirmacion`): returns
the updated users table, the queued confirmation-email tasks and the JSON
message. -/
def reenviar_confirmacion (usuarios : List Usuario) (email : String)
    (nuevo_token : String) : List Usuario × List EmailTask × MensajeResponse :=
  match usuarios.find? (fun u => u.correo == email) with
  | none =>
    (usuarios, [], ⟨"Si el correo existe, recibirás un nuevo enlace de confirmación."⟩)
  | some usuario =>
    if usuario.correo_confirmado then
      (usuarios, [], ⟨"Este correo ya está confirmado. Puedes iniciar sesión."⟩)
    else
      let resultado := regenerate_confirmation_token usuarios email nuevo_token
      let tareas : List EmailTask :=
        match resultado.2 with
        | some t => [⟨usuario.correo, usuario.nombre, t⟩]
        | none => []
      (resultado.1, tareas, ⟨"Se ha enviado un nuevo correo de confirmación."⟩)

/-- The six draws of `random.randint(0, 9)` joined into the reset code:
`''.join([str(random.randint(0, 9)) for _ in range(6)])`. -/
def generar_codigo (draws : Fin 6 → Fin 10) : String :=
  String.join ((List.finRange 6).map (fun i => toString ((draws i) : Nat)))

/-- `request_password_reset` (router `POST /request-password-reset`): the
same message whether or not the email matches a user; when it does, the
6-digit code is stored in the user's confirmation-token column and the code
email is queued. -/
def request_password_reset (usuarios : List Usuario) (email : String)
    (draws : Fin 6 → Fin 10) :
    List Usuario × List ResetCodeEmailTask × MensajeResponse :=
  match usuarios.find? (fun u => u.correo == email) with
  | none =>
    (usuarios, [], ⟨"Si el correo existe, recibirás un código de recuperación."⟩)
  | some usuario =>
    let codigo := generar_codigo draws
    (usuarios.map (fun v =>
      if v.id_usuario == usuario.id_usuario then
        { v with token_confirmacion := some codigo }
      else v),
     [⟨usuario.correo, usuario.nombre, codigo⟩],
     ⟨"Si el correo existe, recibirás un código de recuperación."⟩)

/-- A concrete already-confirmed account. -/
def usuarioConfirmado : Usuario :=
  ⟨3, "Mia", "Sol", "mia@performia.com", "Activo", 4,
   ⟨4, "Colaborador", "Activo"⟩, none, true, none⟩

/-- C5 counterexample: the claim that a resend-confirmation request for an
unknown email and one for an already-confirmed account carry an identical
message is false — the code answers the first with the generic message and
the second with a distinct message that confirms the account exists. -/
theorem C5_contraejemplo_mensajes_distintos :
    (reenviar_confirmacion [usuarioConfirmado] "nadie@performia.com" "tok").2.2.message ≠
      (reenviar_confirmacion [usuarioConfirmado] "mia@performia.com" "tok").2.2.message := by
  decide

/-- C5 (amended): both requests get a success-shaped `{"message": ...}`
response — an unknown email the generic
"Si el correo existe, recibirás un nuevo enlace de confirmación.", an
already-confirmed account
"Este correo ya está confirmado. Puedes iniciar sesión." — with no user
mutated and no email queued in either case; but the two messages are
distinct, so the already-confirmed reply does reveal that the account
exists. -/
theorem C5_mensajes_reenvio (usuarios : List Usuario)
    (email1 email2 t1 t2 : String) (u : Usuario)
    (h1 : usuarios.find? (fun v => v.correo == email1) = none)
    (h2 : usuarios.find? (fun v => v.correo == email2) = some u)
    (hconf : u.correo_confirmado = true) :
    reenviar_confirmacion usuarios email1 t1 =
      (usuarios, [], ⟨"Si el correo existe, recibirás un nuevo enlace de confirmación."⟩)
    ∧ reenviar_confirmacion usuarios email2 t2 =
      (usuarios, [], ⟨"Este correo ya está confirmado. Puedes iniciar sesión."⟩)
    ∧ (reenviar_confirmacion usuarios email1 t1).2.2 ≠
        (reenviar_confirmacion usuarios email2 t2).2.2 := by
  refine ⟨?_, ?_, ?_⟩
  · simp [reenviar_confirmacion, h1]
  · simp [reenviar_confirmacion, h2, hconf]
  · simp [reenviar_confirmacion, h1, h2, hconf]

/-- C5 witness: `C5_mensajes_reenvio` applied to a concrete confirmed
account and a concrete unknown email. -/
theorem C5_mensajes_reenvio_testigo :
    reenviar_confirmacion [usuarioConfirmado] "mia@performia.com" "tok" =
      ([usuarioConfirmado], [],
       ⟨"Este correo ya está confirmado. Puedes iniciar sesión."⟩) :=
  (C5_mensajes_reenvio [usuarioConfirmado] "nadie@performia.com" "mia@performia.com"
    "tok" "tok" usuarioConfirmado rfl rfl rfl).2.1

/-- The account produced by registering through `create_user`: state
`Activo`, email not yet confirmed. -/
def usuarioRegistrado : Usuario :=
  create_user ⟨"Ana", "Diaz", "ana@performia.com", none, "secreta", "Analista",
    "Ventas", 4⟩ "tok0" 1 ⟨4, "Colaborador", "Activo"⟩

/-- C6 failing input: a freshly registered, still unconfirmed account.
`create_user` sets `estado="Activo"` with `correo_confirmado=False`, and
`regenerate_confirmation_token` refuses any user whose `estado` is
`"Activo"` — so resending the confirmation stores no new token and queues no
email, while still answering "Se ha enviado un nuevo correo de
confirmación.". -/
theorem C6_reenvio_no_regenera_para_activo :
    usuarioRegistrado.correo_confirmado = false
    ∧ usuarioRegistrado.estado = "Activo"
    ∧ regenerate_confirmation_token [usuarioRegistrado] "ana@performia.com" "tok1" =
        ([usuarioRegistrado], none)
    ∧ reenviar_confirmacion [usuarioRegistrado] "ana@performia.com" "tok1" =
        ([usuarioRegistrado], [],
         ⟨"Se ha enviado un nuevo correo de confirmación."⟩) := by
  refine ⟨rfl, rfl, rfl, rfl⟩

theorem digito_toString (d : Fin 10) :
    (toString ((d : Nat))).data = [Char.ofNat (48 + (d : Nat))] := by
  revert d
  decide

theorem flatten_map_singleton {α β : Type} (f : α → β) (l : List α) :
    (l.map (fun a => [f a])).flatten = l.map f := by
  induction l with
  | nil => simp
  | cons a l ih => simp [ih]

theorem generar_codigo_data (draws : Fin 6 → Fin 10) :
    (generar_codigo draws).data =
      (List.finRange 6).map (fun i => Char.ofNat (48 + ((draws i) : Nat))) := by
  simp only [generar_codigo, String.data_join, List.map_map]
  rw [show ((fun s => String.data s) ∘ fun i => toString ((draws i) : Nat)) =
      fun i => [Char.ofNat (48 + ((draws i) : Nat))] from
    funext fun i => digito_toString (draws i)]
  exact flatten_map_singleton _ _

/-- C7: the password-reset request responds with one and the same message
whether or not the email matches an account; and when it does, the code
stored on the user is the one built from the six `randint(0, 9)` draws — a
string of exactly 6 characters, each a decimal digit. -/
theorem C7_codigo_reset :
    (∀ (usuarios : List Usuario) (e1 e2 : String) (d1 d2 : Fin 6 → Fin 10),
      (request_password_reset usuarios e1 d1).2.2 =
        (request_password_reset usuarios e2 d2).2.2)
    ∧ (∀ draws : Fin 6 → Fin 10,
        (generar_codigo draws).length = 6
        ∧ ∀ c ∈ (generar_codigo draws).data, c.isDigit = true)
    ∧ (∀ (usuarios : List Usuario) (email : String) (draws : Fin 6 → Fin 10)
        (u : Usuario), usuarios.find? (fun v => v.correo == email) = some u →
        { u with token_confirmacion := some (generar_codigo draws) } ∈
          (request_password_reset usuarios email draws).1) := by
  refine ⟨?_, ?_, ?_⟩
  · intro usuarios e1 e2 d1 d2
    cases h1 : usuarios.find? (fun u => u.correo == e1) <;>
      cases h2 : usuarios.find? (fun u => u.correo == e2) <;>
        simp [request_password_reset, h1, h2]
  · intro draws
    constructor
    · show (generar_codigo draws).data.length = 6
      rw [generar_codigo_data, List.length_map, List.length_finRange]
    · intro c hc
      rw [generar_codigo_data] at hc
      obtain ⟨i, _, rfl⟩ := List.mem_map.mp hc
      exact (by decide : ∀ d : Fin 10, (Char.ofNat (48 + (d : Nat))).isDigit = true)
        (draws i)
  · intro usuarios email draws u hfind
    simp only [request_password_reset, hfind]
    exact List.mem_map.mpr ⟨u, List.mem_of_find?_eq_some hfind, by simp⟩

/-- An unconfirmed account used as concrete data for the reset-code witness. -/
def usuarioParaReset : Usuario :=
  ⟨7, "Leo", "Ruiz", "leo@performia.com", "Activo", 4,
   ⟨4, "Colaborador", "Activo"⟩, none, true, none⟩

/-- C7 witness: `C7_codigo_reset` applied to a concrete account and the
constant draw `3`, storing the code built from the draws on the user. -/
theorem C7_codigo_reset_testigo :
    { usuarioParaReset with
        token_confirmacion := some (generar_codigo (fun _ => (3 : Fin 10))) } ∈
      (request_password_reset [usuarioParaReset] "leo@performia.com"
        (fun _ => (3 : Fin 10))).1 :=
  C7_codigo_reset.2.2 [usuarioParaReset] "leo@performia.com" (fun _ => (3 : Fin 10))
    usuarioParaReset rfl

/-! ## Referential delete guards (`users/services.py`,
`formularios/services.py`) -/

/-- The 400 detail of `delete_rol` naming the attached-user count. -/
def mensaje_rol_asociado (n : Nat) : String :=
  s!"No se puede eliminar el rol porque tiene {n} usuario(s) asociado(s)"

/-- The 400 detail of `delete_formulario` naming the attached-evaluation
count. -/
def mensaje_formulario_asociado (n : Nat) : String :=
  s!"No se puede eliminar el formulario porque tiene {n} evaluación(es) asociada(s)"

/-- The 400 detail of `delete_pregunta` naming the attached-result count. -/
def mensaje_pregunta_asociada (n : Nat) : String :=
  s!"No se puede eliminar la pregunta porque tiene {n} respuesta(s) asociada(s)"

/-- `delete_rol`: refuses (400, naming the count) while any user references
the role, otherwise soft-deletes it by setting `estado="Inactivo"`.  The
first component is the resulting roles table (the exception paths leave it
unchanged). -/
def delete_rol (roles : List Rol) (usuarios : List Usuario) (rol_id : Nat) :
    List Rol × Except HTTPError MensajeResponse :=
  match roles.find? (fun r => r.id_rol == rol_id) with
  | none => (roles, .error ⟨404, "Rol no encontrado"⟩)
  | some _ =>
    let usuarios_count := (usuarios.filter (fun u => u.id_rol == rol_id)).length
    if usuarios_count > 0 then
      (roles, .error ⟨400, mensaje_rol_asociado usuarios_count⟩)
    else
      (roles.map (fun r => if r.id_rol == rol_id then { r with estado := "Inactivo" } else r),
       .ok ⟨"Rol eliminado exitosamente"⟩)

/-- `delete_formulario`: refuses (400, naming the count) while any
evaluation references the form, otherwise archives it
(`estado="Archivado"`). -/
def delete_formulario (formularios : List Formulario) (evaluaciones : List Evaluacion)
    (formulario_id : Nat) : List Formulario × Except HTTPError MensajeResponse :=
  match formularios.find? (fun f => f.id_formulario == formulario_id) with
  | none => (formularios, .error ⟨404, "Formulario no encontrado"⟩)
  | some _ =>
    let evaluaciones_count :=
      (evaluaciones.filter (fun e => e.id_formulario == formulario_id)).length
    if evaluaciones_count > 0 then
      (formularios, .error ⟨400, mensaje_formulario_asociado evaluaciones_count⟩)
    else
      (formularios.map (fun f =>
        if f.id_formulario == formulario_id then { f with estado := "Archivado" } else f),
       .ok ⟨"Formulario archivado exitosamente"⟩)

/-- `delete_pregunta`: refuses (400, naming the count) while any result
references the question, otherwise hard-deletes the row. -/
def delete_pregunta (preguntas : List Pregunta) (resultados : List Resultado)
    (pregunta_id : Nat) : List Pregunta × Except HTTPError MensajeResponse :=
  match preguntas.find? (fun p => p.id_pregunta == pregunta_id) with
  | none => (preguntas, .error ⟨404, "Pregunta no encontrada"⟩)
  | some _ =>
    let resultados_count :=
      (resultados.filter (fun r => r.id_pregunta == pregunta_id)).length
    if resultados_count > 0 then
      (preguntas, .error ⟨400, mensaje_pregunta_asociada resultados_count⟩)
    else
      (preguntas.filter (fun p => !(p.id_pregunta == pregunta_id)),
       .ok ⟨"Pregunta eliminada exitosamente"⟩)

/-- C8: each delete guard refuses with a 400 error naming the reference
count and leaves the table unchanged — a referenced role, a referenced form
and a referenced question respectively. -/
theorem C8_guardas_de_borrado (roles : List Rol) (usuarios : List Usuario)
    (formularios : List Formulario) (evaluaciones : List Evaluacion)
    (preguntas : List Pregunta) (resultados : List Resultado)
    (rol_id formulario_id pregunta_id : Nat) (r : Rol) (f : Formulario) (p : Pregunta)
    (hr : roles.find? (fun x => x.id_rol == rol_id) = some r)
    (hru : 0 < (usuarios.filter (fun u => u.id_rol == rol_id)).length)
    (hf : formularios.find? (fun x => x.id_formulario == formulario_id) = some f)
    (hfe : 0 < (evaluaciones.filter (fun e => e.id_formulario == formulario_id)).length)
    (hp : preguntas.find? (fun x => x.id_pregunta == pregunta_id) = some p)
    (hpr : 0 < (resultados.filter (fun x => x.id_pregunta == pregunta_id)).length) :
    delete_rol roles usuarios rol_id =
      (roles, .error ⟨400, mensaje_rol_asociado
        (usuarios.filter (fun u => u.id_rol == rol_id)).length⟩)
    ∧ delete_formulario formularios evaluaciones formulario_id =
      (formularios, .error ⟨400, mensaje_formulario_asociado
        (evaluaciones.filter (fun e => e.id_formulario == formulario_id)).length⟩)
    ∧ delete_pregunta preguntas resultados pregunta_id =
      (preguntas, .error ⟨400, mensaje_pregunta_asociada
        (resultados.filter (fun x => x.id_pregunta == pregunta_id)).length⟩) := by
  refine ⟨?_, ?_, ?_⟩
  · simp only [delete_rol, hr]
    rw [if_pos hru]
  · simp only [delete_formulario, hf]
    rw [if_pos hfe]
  · simp only [delete_pregunta, hp]
    rw [if_pos hpr]

/-- C8 witness: `C8_guardas_de_borrado` on a role with one user, a form with
one evaluation and a question with one result. -/
theorem C8_guardas_de_borrado_testigo :
    delete_rol [⟨2, "Colaborador", "Activo"⟩] [usuarioSinEvaluacion] 2 =
      ([⟨2, "Colaborador", "Activo"⟩], .error ⟨400, mensaje_rol_asociado 1⟩) :=
  (C8_guardas_de_borrado [⟨2, "Colaborador", "Activo"⟩] [usuarioSinEvaluacion]
    [formularioActivo] [evaluacionPendiente] preguntasEjemplo resultadosEjemplo
    2 1 1 ⟨2, "Colaborador", "Activo"⟩ formularioActivo
    ⟨1, 1, "Comunicación", "Escala", 2, 1, true⟩
    rfl (by decide) rfl (by decide) rfl (by decide)).1

/-! ## `update_formulario` (`formularios/services.py`,
`FormularioUpdate` in `formularios/schemas.py`) -/

/-- Body of `PreguntaBase` (`formularios/schemas.py`); the `opciones` and
`competencia` payload columns are carried along unchanged by every operation
the claims touch and are omitted. -/
structure PreguntaBase where
  texto_pregunta : String
  tipo_pregunta : String
  peso : Rat
  orden : Nat
  requerido : Bool
deriving Repr, DecidableEq

/-- Body of `FormularioUpdate`: every field optional, `none` meaning "not
supplied" (`model_dump(exclude_unset=True)`; for `preguntas` the code tests
`is not None`, which also treats an explicit JSON null as not supplied). -/
structure FormularioUpdate where
  nombre_formulario : Option String
  descripcion : Option String
  tipo_formulario : Option String
  periodo : Option String
  rol_aplicable : Option Nat
  estado : Option String
  preguntas : Option (List PreguntaBase)
deriving Repr, DecidableEq

/-- The `setattr` loop over the supplied scalar fields. -/
def aplicar_update (f : Formulario) (upd : FormularioUpdate) : Formulario :=
  { f with
    nombre_formulario := upd.nombre_formulario.getD f.nombre_formulario,
    descripcion := match upd.descripcion with
      | some d => some d
      | none => f.descripcion,
    tipo_formulario := upd.tipo_formulario.getD f.tipo_formulario,
    periodo := match upd.periodo with
      | some p => some p
      | none => f.periodo,
    rol_aplicable := match upd.rol_aplicable with
      | some r => some r
      | none => f.rol_aplicable,
    estado := upd.estado.getD f.estado }

/-- The question row built from a submitted `PreguntaBase` with the
overwritten `orden`; the autoincrement id is abstracted as `0`. -/
def preguntaDe (formulario_id : Nat) (orden : Nat) (pb : PreguntaBase) : Pregunta :=
  ⟨0, formulario_id, pb.texto_pregunta, pb.tipo_pregunta, pb.peso, orden, pb.requerido⟩

/-- `update_formulario`: 404 when the form is missing; supplied scalar
fields are merged; when — and only when — `preguntas` is supplied, every
existing question of the form is deleted and the submitted list is inserted
with sequential 1-based `orden`. -/
def update_formulario (formularios : List Formulario) (preguntas_db : List Pregunta)
    (formulario_id : Nat) (upd : FormularioUpdate) :
    Except HTTPError (List Formulario × List Pregunta) :=
  match formularios.find? (fun f => f.id_formulario == formulario_id) with
  | none => .error ⟨404, "Formulario no encontrado"⟩
  | some _ =>
    let formularios2 := formularios.map (fun f =>
      if f.id_formulario == formulario_id then aplicar_update f upd else f)
    match upd.preguntas with
    | none => .ok (formularios2, preguntas_db)
    | some nuevas =>
      let restantes := preguntas_db.filter (fun p => !(p.id_formulario == formulario_id))
      let nuevas_filas := nuevas.enum.map (fun ip => preguntaDe formulario_id (ip.1 + 1) ip.2)
      .ok (formularios2, restantes ++ nuevas_filas)

theorem filter_enum_preguntas (formulario_id : Nat) (l : List PreguntaBase) :
    (l.enum.map (fun ip => preguntaDe formulario_id (ip.1 + 1) ip.2)).filter
      (fun p => p.id_formulario == formulario_id) =
    l.enum.map (fun ip => preguntaDe formulario_id (ip.1 + 1) ip.2) := by
  rw [List.filter_eq_self]
  intro p hp
  obtain ⟨ip, _, rfl⟩ := List.mem_map.mp hp
  simp [preguntaDe]

theorem filter_enum_preguntas_otros (formulario_id : Nat) (l : List PreguntaBase) :
    (l.enum.map (fun ip => preguntaDe formulario_id (ip.1 + 1) ip.2)).filter
      (fun p => !(p.id_formulario == formulario_id)) = [] := by
  rw [List.filter_eq_nil_iff]
  intro p hp
  obtain ⟨ip, _, rfl⟩ := List.mem_map.mp hp
  simp [preguntaDe]

theorem filter_restantes_idem (preguntas_db : List Pregunta) (formulario_id : Nat) :
    ((preguntas_db.filter (fun p => !(p.id_formulario == formulario_id))).filter
      (fun p => !(p.id_formulario == formulario_id))) =
    preguntas_db.filter (fun p => !(p.id_formulario == formulario_id)) := by
  rw [List.filter_eq_self]
  intro p hp
  exact (List.mem_filter.mp hp).2

theorem ordenes_secuenciales (formulario_id : Nat) (l : List PreguntaBase) :
    (l.enum.map (fun ip => preguntaDe formulario_id (ip.1 + 1) ip.2)).map
      (fun p => p.orden) = (List.range l.length).map (fun i => i + 1) := by
  rw [List.map_map]
  have : ((fun p => Pregunta.orden p) ∘ fun ip : Nat × PreguntaBase =>
      preguntaDe formulario_id (ip.1 + 1) ip.2) = fun ip => ip.1 + 1 := by
    funext ip
    rfl
  rw [this, ← List.enum_map_fst l, List.map_map]
  rfl

/-- C9: updating a found form without a `preguntas` field merges only the
supplied scalar fields and leaves the questions table untouched; supplying
`preguntas` (an empty list included) deletes every question of that form and
inserts exactly the submitted list with sequential 1-based `orden` — other
forms' questions are untouched, and with an empty list the form is left with
zero questions. -/
theorem C9_actualizacion_preguntas (formularios : List Formulario)
    (preguntas_db : List Pregunta) (formulario_id : Nat) (upd : FormularioUpdate)
    (f : Formulario)
    (hfind : formularios.find? (fun x => x.id_formulario == formulario_id) = some f) :
    (upd.preguntas = none →
      update_formulario formularios preguntas_db formulario_id upd =
        .ok (formularios.map (fun x =>
          if x.id_formulario == formulario_id then aplicar_update x upd else x),
          preguntas_db))
    ∧ (∀ l, upd.preguntas = some l →
        update_formulario formularios preguntas_db formulario_id upd =
          .ok (formularios.map (fun x =>
            if x.id_formulario == formulario_id then aplicar_update x upd else x),
            preguntas_db.filter (fun p => !(p.id_formulario == formulario_id)) ++
              l.enum.map (fun ip => preguntaDe formulario_id (ip.1 + 1) ip.2))
        ∧ (preguntas_db.filter (fun p => !(p.id_formulario == formulario_id)) ++
            l.enum.map (fun ip => preguntaDe formulario_id (ip.1 + 1) ip.2)).filter
            (fun p => p.id_formulario == formulario_id) =
          l.enum.map (fun ip => preguntaDe formulario_id (ip.1 + 1) ip.2)
        ∧ (preguntas_db.filter (fun p => !(p.id_formulario == formulario_id)) ++
            l.enum.map (fun ip => preguntaDe formulario_id (ip.1 + 1) ip.2)).filter
            (fun p => !(p.id_formulario == formulario_id)) =
          preguntas_db.filter (fun p => !(p.id_formulario == formulario_id))
        ∧ (l.enum.map (fun ip => preguntaDe formulario_id (ip.1 + 1) ip.2)).map
            (fun p => p.orden) = (List.range l.length).map (fun i => i + 1))
    ∧ (upd.preguntas = some [] →
        update_formulario formularios preguntas_db formulario_id upd =
          .ok (formularios.map (fun x =>
            if x.id_formulario == formulario_id then aplicar_update x upd else x),
            preguntas_db.filter (fun p => !(p.id_formulario == formulario_id)))
        ∧ (preguntas_db.filter (fun p => !(p.id_formulario == formulario_id))).filter
            (fun p => p.id_formulario == formulario_id) = []) := by
  refine ⟨?_, ?_, ?_⟩
  · intro hnone
    simp only [update_formulario, hfind, hnone]
  · intro l hsome
    refine ⟨?_, ?_, ?_, ?_⟩
    · simp only [update_formulario, hfind, hsome]
    · rw [List.filter_append, filter_enum_preguntas]
      have : (preguntas_db.filter (fun p => !(p.id_formulario == formulario_id))).filter
          (fun p => p.id_formulario == formulario_id) = [] := by
        rw [List.filter_eq_nil_iff]
        intro p hp
        have := (List.mem_filter.mp hp).2
        simp at this
        simp [this]
      rw [this, List.nil_append]
    · rw [List.filter_append, filter_restantes_idem, filter_enum_preguntas_otros,
        List.append_nil]
    · exact ordenes_secuenciales formulario_id l
  · intro hvacia
    constructor
    · have h := (by exact hvacia : upd.preguntas = some [])
      simp only [update_formulario, hfind, h]
      simp
    · rw [List.filter_eq_nil_iff]
      intro p hp
      have := (List.mem_filter.mp hp).2
      simp at this
      simp [this]

/-- C9 witness: `C9_actualizacion_preguntas` on a concrete form with two
existing questions and an update carrying an explicitly empty `preguntas`
list — the form ends with zero questions. -/
theorem C9_actualizacion_preguntas_testigo :
    update_formulario [formularioActivo] preguntasEjemplo 1
        ⟨none, none, none, none, none, none, some []⟩ =
      .ok ([formularioActivo], []) :=
  (((C9_actualizacion_preguntas [formularioActivo] preguntasEjemplo 1
      ⟨none, none, none, none, none, none, some []⟩ formularioActivo rfl).2.2)
    rfl).1.trans (by rfl)

/-! ## `get_distribucion_calificaciones` (`reportes/services.py`) -/

/-- The optional `periodo` filter of the subquery. -/
def periodoCoincide (periodo : Option String) (e : Evaluacion) : Bool :=
  match periodo with
  | some p => e.periodo == p
  | none => true

/-- Rows of the subquery before grouping: one `(id_evaluado, puntaje)` pair
per non-null-scored result of a `Completada` evaluation (of the period when
one is given). -/
def filas_puntaje (evaluaciones : List Evaluacion) (resultados : List Resultado)
    (periodo : Option String) : List (Nat × Rat) :=
  evaluaciones.flatMap (fun e =>
    if e.estado == "Completada" && periodoCoincide periodo e then
      resultados.filterMap (fun r =>
        if r.id_evaluacion == e.id_evaluacion then
          r.puntaje.map (fun s => (e.id_evaluado, s))
        else none)
    else [])

/-- `func.avg(Resultado.puntaje)` for one evaluated user over the subquery
rows. -/
def promedio_de (filas : List (Nat × Rat)) (uid : Nat) : Rat :=
  let xs := filas.filterMap (fun pr => if pr.1 == uid then some pr.2 else none)
  xs.sum / (xs.length : Rat)

/-- The grouped subquery: each evaluated user with scored results of
completed evaluations, paired with their own average score. -/
def evaluados_con_promedio (evaluaciones : List Evaluacion)
    (resultados : List Resultado) (periodo : Option String) : List (Nat × Rat) :=
  let filas := filas_puntaje evaluaciones resultados periodo
  ((filas.map Prod.fst).dedup).map (fun uid => (uid, promedio_de filas uid))

/-- The four bucket counters returned as
`{"1.0-2.0": _, "2.1-3.0": _, "3.1-4.0": _, "4.1-5.0": _}`. -/
structure DistribucionCalificaciones where
  rango_1 : Nat
  rango_2 : Nat
  rango_3 : Nat
  rango_4 : Nat
deriving Repr, DecidableEq

/-- `get_distribucion_calificaciones`: per-user averages bucketed into
`[0, 2]`, `(2, 3]`, `(3, 4]`, `(4, 5]`. -/
def get_distribucion_calificaciones (evaluaciones : List Evaluacion)
    (resultados : List Resultado) (periodo : Option String) :
    DistribucionCalificaciones :=
  let promedios := evaluados_con_promedio evaluaciones resultados periodo
  ⟨(promedios.filter (fun up => decide (0 ≤ up.2 ∧ up.2 ≤ 2))).length,
   (promedios.filter (fun up => decide (2 < up.2 ∧ up.2 ≤ 3))).length,
   (promedios.filter (fun up => decide (3 < up.2 ∧ up.2 ≤ 4))).length,
   (promedios.filter (fun up => decide (4 < up.2 ∧ up.2 ≤ 5))).length⟩

theorem cuenta_rangos (a : Rat) :
    ((if 0 ≤ a ∧ a ≤ 2 then 1 else 0) + (if 2 < a ∧ a ≤ 3 then 1 else 0)
      + (if 3 < a ∧ a ≤ 4 then 1 else 0) + (if 4 < a ∧ a ≤ 5 then 1 else 0) : Nat)
    = if 0 ≤ a ∧ a ≤ 5 then 1 else 0 := by
  rcases lt_or_le a 0 with h0 | h0
  · rw [if_neg (by rintro ⟨h, _⟩; linarith), if_neg (by rintro ⟨h, _⟩; linarith),
      if_neg (by rintro ⟨h, _⟩; linarith), if_neg (by rintro ⟨h, _⟩; linarith),
      if_neg (by rintro ⟨h, _⟩; linarith)]
  rcases le_or_lt a 2 with h2 | h2
  · rw [if_pos ⟨h0, h2⟩, if_neg (by rintro ⟨h, _⟩; linarith),
      if_neg (by rintro ⟨h, _⟩; linarith), if_neg (by rintro ⟨h, _⟩; linarith),
      if_pos ⟨h0, by linarith⟩]
  rcases le_or_lt a 3 with h3 | h3
  · rw [if_neg (by rintro ⟨_, h⟩; linarith), if_pos ⟨h2, h3⟩,
      if_neg (by rintro ⟨h, _⟩; linarith), if_neg (by rintro ⟨h, _⟩; linarith),
      if_pos ⟨h0, by linarith⟩]
  rcases le_or_lt a 4 with h4 | h4
  · rw [if_neg (by rintro ⟨_, h⟩; linarith), if_neg (by rintro ⟨_, h⟩; linarith),
      if_pos ⟨h3, h4⟩, if_neg (by rintro ⟨h, _⟩; linarith),
      if_pos ⟨h0, by linarith⟩]
  rcases le_or_lt a 5 with h5 | h5
  · rw [if_neg (by rintro ⟨_, h⟩; linarith), if_neg (by rintro ⟨_, h⟩; linarith),
      if_neg (by rintro ⟨_, h⟩; linarith), if_pos ⟨h4, h5⟩,
      if_pos ⟨h0, h5⟩]
  · rw [if_neg (by rintro ⟨_, h⟩; linarith), if_neg (by rintro ⟨_, h⟩; linarith),
      if_neg (by rintro ⟨_, h⟩; linarith), if_neg (by rintro ⟨_, h⟩; linarith),
      if_neg (by rintro ⟨_, h⟩; linarith)]

theorem length_if_cons {α : Type} (P : Prop) [Decidable P] (x : α) (xs : List α) :
    (if P then x :: xs else xs).length = (if P then 1 else 0) + xs.length := by
  split
  · simp [Nat.add_comm]
  · simp

theorem suma_filtros_rangos (l : List (Nat × Rat)) :
    (l.filter (fun up => decide (0 ≤ up.2 ∧ up.2 ≤ 2))).length +
    (l.filter (fun up => decide (2 < up.2 ∧ up.2 ≤ 3))).length +
    (l.filter (fun up => decide (3 < up.2 ∧ up.2 ≤ 4))).length +
    (l.filter (fun up => decide (4 < up.2 ∧ up.2 ≤ 5))).length =
    (l.filter (fun up => decide (0 ≤ up.2 ∧ up.2 ≤ 5))).length := by
  induction l with
  | nil => rfl
  | cons up l ih =>
    simp only [List.filter_cons, decide_eq_true_eq, length_if_cons]
    have hc := cuenta_rangos up.2
    linarith [hc, ih]

/-- C10: the score distribution counts, per bucket, the evaluated users
(each appearing exactly once in the grouped averages) whose own average of
non-null scores over Completada evaluations falls in `[0, 2]`, `(2, 3]`,
`(3, 4]` and `(4, 5]` respectively; the buckets are pairwise disjoint — a
user in one bucket is in no other, counting once in total exactly when the
average lies in `[0, 5]` — and together they exhaust the users with average
in `[0, 5]`. -/
theorem C10_distribucion_calificaciones (evaluaciones : List Evaluacion)
    (resultados : List Resultado) (periodo : Option String) :
    get_distribucion_calificaciones evaluaciones resultados periodo =
      ⟨((evaluados_con_promedio evaluaciones resultados periodo).filter
          (fun up => decide (0 ≤ up.2 ∧ up.2 ≤ 2))).length,
       ((evaluados_con_promedio evaluaciones resultados periodo).filter
          (fun up => decide (2 < up.2 ∧ up.2 ≤ 3))).length,
       ((evaluados_con_promedio evaluaciones resultados periodo).filter
          (fun up => decide (3 < up.2 ∧ up.2 ≤ 4))).length,
       ((evaluados_con_promedio evaluaciones resultados periodo).filter
          (fun up => decide (4 < up.2 ∧ up.2 ≤ 5))).length⟩
    ∧ ((evaluados_con_promedio evaluaciones resultados periodo).map Prod.fst).Nodup
    ∧ (∀ up ∈ evaluados_con_promedio evaluaciones resultados periodo,
        ((if 0 ≤ up.2 ∧ up.2 ≤ 2 then 1 else 0) + (if 2 < up.2 ∧ up.2 ≤ 3 then 1 else 0)
          + (if 3 < up.2 ∧ up.2 ≤ 4 then 1 else 0)
          + (if 4 < up.2 ∧ up.2 ≤ 5 then 1 else 0) : Nat)
        = if 0 ≤ up.2 ∧ up.2 ≤ 5 then 1 else 0)
    ∧ (get_distribucion_calificaciones evaluaciones resultados periodo).rango_1 +
        (get_distribucion_calificaciones evaluaciones resultados periodo).rango_2 +
        (get_distribucion_calificaciones evaluaciones resultados periodo).rango_3 +
        (get_distribucion_calificaciones evaluaciones resultados periodo).rango_4 =
      ((evaluados_con_promedio evaluaciones resultados periodo).filter
        (fun up => decide (0 ≤ up.2 ∧ up.2 ≤ 5))).length := by
  refine ⟨rfl, ?_, ?_, ?_⟩
  · simp only [evaluados_con_promedio, List.map_map]
    have : (Prod.fst ∘ fun uid => (uid,
        promedio_de (filas_puntaje evaluaciones resultados periodo) uid)) =
        fun uid : Nat => uid := by
      funext uid
      rfl
    rw [this]
    simpa using
      ((filas_puntaje evaluaciones resultados periodo).map Prod.fst).nodup_dedup
  · intro up _
    exact cuenta_rangos up.2
  · exact suma_filtros_rangos (evaluados_con_promedio evaluaciones resultados periodo)

/-- C10 witness: `C10_distribucion_calificaciones` applied to a concrete
completed evaluation with one scored result — the four bucket counts sum to
the number of users with average in `[0, 5]`. -/
theorem C10_distribucion_calificaciones_testigo :
    (get_distribucion_calificaciones
        [⟨1, 1, 2, 2, "Autoevaluación", "2025", "Completada", some 4, 0, 10, none⟩]
        [⟨1, 1, 1, none, some 4, none⟩] none).rango_1 +
      (get_distribucion_calificaciones
        [⟨1, 1, 2, 2, "Autoevaluación", "2025", "Completada", some 4, 0, 10, none⟩]
        [⟨1, 1, 1, none, some 4, none⟩] none).rango_2 +
      (get_distribucion_calificaciones
        [⟨1, 1, 2, 2, "Autoevaluación", "2025", "Completada", some 4, 0, 10, none⟩]
        [⟨1, 1, 1, none, some 4, none⟩] none).rango_3 +
      (get_distribucion_calificaciones
        [⟨1, 1, 2, 2, "Autoevaluación", "2025", "Completada", some 4, 0, 10, none⟩]
        [⟨1, 1, 1, none, some 4, none⟩] none).rango_4 =
    ((evaluados_con_promedio
        [⟨1, 1, 2, 2, "Autoevaluación", "2025", "Completada", some 4, 0, 10, none⟩]
        [⟨1, 1, 1, none, some 4, none⟩] none).filter
      (fun up => decide (0 ≤ up.2 ∧ up.2 ≤ 5))).length :=
  (C10_distribucion_calificaciones
    [⟨1, 1, 2, 2, "Autoevaluación", "2025", "Completada", some 4, 0, 10, none⟩]
    [⟨1, 1, 1, none, some 4, none⟩] none).2.2.2

end Performia
